import Mathlib

/-!
Verification development for the MLOps churn-prediction pipeline.

Shallow embedding of the Python sources:
  - `config/model.py`, `config/features.py`  (immutable configuration registries)
  - `src/scoring/churn_type.py`              (rule-based churn-type classifier)
  - `src/training/data_loader.py`            (typed loading + leakage guard)
  - `src/training/walk_forward.py`           (walk-forward temporal folds)
  - `src/training/stacking_ensemble.py`      (4 L0 specialists + L1 meta-learner)
  - `src/monitoring/drift_detector.py`       (PSI feature-drift metric)

Conventions used throughout:
  - pandas/numpy float values are modelled as rationals (`ℚ`);
    a possibly-NaN float is `Option ℚ` with `none` standing for NaN
    (in pandas every comparison against NaN is false);
  - a DataFrame column that may be absent is `Option` at the row level
    with `none` standing for "column missing" where `df.get` supplies a
    default;
  - calendar dates are encoded as integer date codes `yyyymmdd` (an
    order-embedding of dates) where only comparisons matter, and as
    integer points on a 31-per-month time axis where month arithmetic
    matters;
  - fallible code (`raise`) is `Except String`.
-/

namespace Churn

/-! ### Configuration registry — `config/model.py` -/

/-- `ModelConfig.HIGH_RISK_THRESHOLD` (config/model.py line 30). -/
def HIGH_RISK_THRESHOLD : ℚ := 7/10

/-- `ModelConfig.MEDIUM_RISK_THRESHOLD` (config/model.py line 31). -/
def MEDIUM_RISK_THRESHOLD : ℚ := 2/5

/-- `ModelConfig.BEHAVIORAL_CHURN_DAYS` (config/model.py line 37). -/
def BEHAVIORAL_CHURN_DAYS : ℚ := 10

/-- `ModelConfig.CONTRACT_RENEWAL_CYCLE_DAYS` (config/model.py line 49). -/
def CONTRACT_RENEWAL_CYCLE_DAYS : ℚ := 30

/-- `ModelConfig.VALIDATION_WINDOW_MONTHS` (config/model.py line 55). -/
def VALIDATION_WINDOW_MONTHS : ℕ := 1

/-- `ModelConfig.DATA_CUTOFF_DATE` = "2026-02-10", as a `yyyymmdd` date code
(config/model.py line 65). -/
def DATA_CUTOFF_DATE : ℤ := 20260210

/-- `ModelConfig.TRAIN_START_DATE` = "2024-03-01", as a `yyyymmdd` date code
(config/model.py line 59). -/
def TRAIN_START_DATE : ℤ := 20240301

/-- `ModelConfig.PLAYBOOK_MAPPING` (config/model.py lines 153-162). -/
def PLAYBOOK_MAPPING : List (String × String) :=
  [ ("HIGH_BEHAVIORAL", "PB_HIGH_BEHAVIORAL")
  , ("HIGH_FINANCIAL", "PB_HIGH_FINANCIAL")
  , ("HIGH_DEFAULT", "PB_HIGH_FINANCIAL")
  , ("HIGH_FULL", "PB_HIGH_FULL")
  , ("MEDIUM_BEHAVIORAL", "PB_MEDIUM_BEHAVIORAL")
  , ("MEDIUM_FINANCIAL", "PB_MEDIUM_FINANCIAL")
  , ("MEDIUM_DEFAULT", "PB_MEDIUM_FINANCIAL")
  , ("LOW_NONE", "PB_LOW_ACTIVE") ]

/-! ### Churn-type classifier — `src/scoring/churn_type.py`

`classify_churn_type` operates column-wise on a DataFrame, but every
operation it performs (`==`, `>=`, `&`, `|`, `~`, `isin`, nested
`np.where`) is elementwise, so it is embedded as a per-row function.
`df.get("col", default-0.0-series)` on a frame lacking the column yields
the default; that per-frame fact is modelled per-row with `Option ℚ`
(`none` = the column is missing). -/

/-- One row of the scored DataFrame handed to `classify_churn_type`
(churn_type.py lines 42-51).
`days_since_last_checkin` is `Option` because the column value can be
NaN and every pandas comparison against NaN is false.
`is_defaulter` and `has_open_receivable` are `Option` because the code
reads them with `df.get(col, 0.0-series)`: `none` = column missing. -/
structure ScoredRow where
  days_since_last_checkin : Option ℚ
  has_ever_checked_in : ℚ
  risk_tier : String
  is_defaulter : Option ℚ
  has_open_receivable : Option ℚ
  deriving DecidableEq

/-- `is_defaulter = df.get("is_defaulter", 0.0-series) == 1.0`
(churn_type.py line 61), per row. -/
def sig_defaulter (r : ScoredRow) : Bool := r.is_defaulter.getD 0 == 1

/-- `(days_since_last_checkin >= threshold) | (has_ever_checked_in == 0.0),
& ~is_defaulter` (churn_type.py lines 65-71), per row.
A NaN `days_since_last_checkin` compares false in pandas. -/
def sig_behavioral (r : ScoredRow) : Bool :=
  ((match r.days_since_last_checkin with
    | none => false
    | some d => decide (BEHAVIORAL_CHURN_DAYS ≤ d))
   || r.has_ever_checked_in == 0)
  && ! sig_defaulter r

/-- `(df.get("has_open_receivable", 0.0-series) == 1.0) & ~is_defaulter`
(churn_type.py lines 77-80), per row. -/
def sig_financial (r : ScoredRow) : Bool :=
  (r.has_open_receivable.getD 0 == 1) && ! sig_defaulter r

/-- `at_risk = df["risk_tier"].isin(["HIGH", "MEDIUM"])`
(churn_type.py line 83), per row. -/
def sig_at_risk (r : ScoredRow) : Bool :=
  r.risk_tier == "HIGH" || r.risk_tier == "MEDIUM"

/-- `classify_churn_type` (churn_type.py lines 37-108), per row.
Mirrors the nested `np.where` priority chain (lines 86-98):
DEFAULT, then FULL, then BEHAVIORAL, then FINANCIAL, else NONE,
each gated on the row being at risk (tier HIGH or MEDIUM). -/
def classify_churn_type (r : ScoredRow) : String :=
  if sig_at_risk r && sig_defaulter r then "DEFAULT"
  else if sig_at_risk r && sig_behavioral r && sig_financial r then "FULL"
  else if sig_at_risk r && sig_behavioral r then "BEHAVIORAL"
  else if sig_at_risk r && sig_financial r then "FINANCIAL"
  else "NONE"

/-- `assign_playbook` (churn_type.py lines 111-138), per row:
look up `"{tier}_{churn_type}"` in `PLAYBOOK_MAPPING`, falling back to
`"PB_LOW_ACTIVE"` for unknown combinations. -/
def assign_playbook (tier ctype : String) : String :=
  (PLAYBOOK_MAPPING.lookup (tier ++ "_" ++ ctype)).getD "PB_LOW_ACTIVE"

/-! ### Risk tiers — `StackingEnsemble.predict_risk_tier`
(src/training/stacking_ensemble.py lines 214-225), per probability. -/

/-- `predict_risk_tier` (stacking_ensemble.py lines 214-225):
`np.where(p >= HIGH, "HIGH", np.where(p >= MEDIUM, "MEDIUM", "LOW"))`. -/
def predict_risk_tier (p : ℚ) : String :=
  if HIGH_RISK_THRESHOLD ≤ p then "HIGH"
  else if MEDIUM_RISK_THRESHOLD ≤ p then "MEDIUM"
  else "LOW"

/-- Risk ordering of the tier labels: LOW < MEDIUM < HIGH. -/
def tierRank (t : String) : ℕ :=
  if t == "HIGH" then 2 else if t == "MEDIUM" then 1 else 0

/-! ### Derived features — `src/training/data_loader.py` -/

/-- `is_defaulter` derivation from `_add_derived_features`
(data_loader.py lines 138-142), per row, for a frame that has both the
`has_open_receivable` and `days_since_last_payment` columns:
`(has_open_receivable == 1.0) & (days_since_last_payment > 30)`,
cast to float. -/
def derive_is_defaulter (has_open_receivable days_since_last_payment : ℚ) : ℚ :=
  if has_open_receivable = 1 ∧ CONTRACT_RENEWAL_CYCLE_DAYS < days_since_last_payment
  then 1 else 0

/-- C2: `classify_churn_type` is total and exclusive — it is a total function
producing exactly one of the five churn types for any row; when
`is_defaulter` reads as 1.0 and the tier is HIGH or MEDIUM the result is
DEFAULT (strictly dominating BEHAVIORAL, FINANCIAL, FULL); and every row
whose risk tier is LOW is classified NONE. -/
theorem classify_churn_type_total_exclusive :
    (∀ r : ScoredRow,
        classify_churn_type r ∈ ["DEFAULT", "FULL", "BEHAVIORAL", "FINANCIAL", "NONE"]) ∧
    (∀ r : ScoredRow, r.is_defaulter.getD 0 = 1 →
        (r.risk_tier = "HIGH" ∨ r.risk_tier = "MEDIUM") →
        classify_churn_type r = "DEFAULT") ∧
    (∀ r : ScoredRow, r.risk_tier = "LOW" → classify_churn_type r = "NONE") := by
  refine ⟨?_, ?_, ?_⟩
  · intro r
    unfold classify_churn_type
    split_ifs <;> simp
  · intro r hdef htier
    have h1 : sig_defaulter r = true := by simp [sig_defaulter, hdef]
    have h2 : sig_at_risk r = true := by
      rcases htier with h | h <;> simp [sig_at_risk, h]
    unfold classify_churn_type
    simp [h1, h2]
  · intro r htier
    have h2 : sig_at_risk r = false := by simp [sig_at_risk, htier]
    unfold classify_churn_type
    simp [h2]

/-- Witness for C2 at concrete rows: a HIGH-tier defaulter row is DEFAULT
and a LOW-tier row with every signal raised is still NONE. -/
theorem classify_churn_type_total_exclusive_witness :
    classify_churn_type ⟨some 0, 1, "HIGH", some 1, some 0⟩ = "DEFAULT" ∧
    classify_churn_type ⟨some 20, 0, "LOW", some 1, some 1⟩ = "NONE" :=
  ⟨classify_churn_type_total_exclusive.2.1 ⟨some 0, 1, "HIGH", some 1, some 0⟩
      rfl (Or.inl rfl),
   classify_churn_type_total_exclusive.2.2 ⟨some 20, 0, "LOW", some 1, some 1⟩ rfl⟩

/-- C6: `predict_risk_tier` is a pure deterministic step function of the
probability with exact boundaries at the configured thresholds 0.70 and
0.40: p ≥ 0.70 yields HIGH, 0.40 ≤ p < 0.70 yields MEDIUM, p < 0.40
yields LOW, and the tier is non-decreasing in risk as p increases. -/
theorem predict_risk_tier_step_function :
    HIGH_RISK_THRESHOLD = 7/10 ∧ MEDIUM_RISK_THRESHOLD = 2/5 ∧
    (∀ p : ℚ,
      (7/10 ≤ p → predict_risk_tier p = "HIGH") ∧
      (2/5 ≤ p → p < 7/10 → predict_risk_tier p = "MEDIUM") ∧
      (p < 2/5 → predict_risk_tier p = "LOW")) ∧
    (∀ p q : ℚ, p ≤ q →
      tierRank (predict_risk_tier p) ≤ tierRank (predict_risk_tier q)) := by
  have hH : HIGH_RISK_THRESHOLD = 7/10 := rfl
  have hM : MEDIUM_RISK_THRESHOLD = 2/5 := rfl
  refine ⟨hH, hM, fun p => ⟨?_, ?_, ?_⟩, ?_⟩
  · intro h
    simp [predict_risk_tier, hH, h]
  · intro h1 h2
    simp [predict_risk_tier, hH, hM, h1, not_le.mpr h2]
  · intro h
    have h2 : ¬ (7/10 : ℚ) ≤ p := by linarith
    simp [predict_risk_tier, hH, hM, h2, not_le.mpr h]
  · intro p q hpq
    unfold predict_risk_tier
    rw [hH, hM]
    split_ifs with a b c d e <;> simp [tierRank] <;> linarith

/-- Witness for C6 at concrete probabilities 0.8, 0.5 and 0.2. -/
theorem predict_risk_tier_step_function_witness :
    predict_risk_tier (4/5) = "HIGH" ∧ predict_risk_tier (1/2) = "MEDIUM" ∧
    predict_risk_tier (1/5) = "LOW" ∧
    tierRank (predict_risk_tier (1/5)) ≤ tierRank (predict_risk_tier (4/5)) :=
  ⟨(predict_risk_tier_step_function.2.2.1 (4/5)).1 (by norm_num),
   (predict_risk_tier_step_function.2.2.1 (1/2)).2.1 (by norm_num) (by norm_num),
   (predict_risk_tier_step_function.2.2.1 (1/5)).2.2 (by norm_num),
   predict_risk_tier_step_function.2.2.2 (1/5) (4/5) (by norm_num)⟩

/-- C7: a member row with `has_open_receivable = 1` and
`days_since_last_payment = 45` under the 30-day renewal cycle derives
`is_defaulter = 1.0`; with `risk_tier = "HIGH"` such a row is classified
DEFAULT and mapped to playbook PB_HIGH_FINANCIAL, regardless of check-in
recency (any `days_since_last_checkin`, any `has_ever_checked_in`). -/
theorem defaulter_scenario :
    ∀ (dslc : Option ℚ) (hec : ℚ),
      derive_is_defaulter 1 45 = 1 ∧
      classify_churn_type ⟨dslc, hec, "HIGH", some (derive_is_defaulter 1 45), some 1⟩
        = "DEFAULT" ∧
      assign_playbook "HIGH"
          (classify_churn_type ⟨dslc, hec, "HIGH", some (derive_is_defaulter 1 45), some 1⟩)
        = "PB_HIGH_FINANCIAL" := by
  intro dslc hec
  have hd : derive_is_defaulter 1 45 = 1 := by
    unfold derive_is_defaulter CONTRACT_RENEWAL_CYCLE_DAYS
    norm_num
  have hsd : sig_defaulter ⟨dslc, hec, "HIGH", some (derive_is_defaulter 1 45), some 1⟩
      = true := by
    simp [sig_defaulter, hd]
  have hc : classify_churn_type ⟨dslc, hec, "HIGH", some (derive_is_defaulter 1 45), some 1⟩
      = "DEFAULT" := by
    unfold classify_churn_type
    simp [hsd, sig_at_risk]
  refine ⟨hd, hc, ?_⟩
  rw [hc]
  rfl

/-- C10: if the `is_defaulter` column is missing, `df.get` supplies an
all-zero default, so no row is classified DEFAULT; if the
`has_open_receivable` column is missing, the financial signal is
all-false, so no row is classified FINANCIAL or FULL. The classifier is
a total function, so it returns normally in both cases. -/
theorem classify_missing_columns :
    ∀ r : ScoredRow,
      (r.is_defaulter = none → classify_churn_type r ≠ "DEFAULT") ∧
      (r.has_open_receivable = none →
        classify_churn_type r ≠ "FINANCIAL" ∧ classify_churn_type r ≠ "FULL") := by
  intro r
  constructor
  · intro h
    have h1 : sig_defaulter r = false := by simp [sig_defaulter, h]
    unfold classify_churn_type
    simp only [h1, Bool.and_false, Bool.false_eq_true, if_false]
    split_ifs <;> simp
  · intro h
    have h2 : sig_financial r = false := by simp [sig_financial, h]
    unfold classify_churn_type
    simp only [h2, Bool.and_false, Bool.false_eq_true, if_false]
    split_ifs <;> simp

/-! ### Data loader — `src/training/data_loader.py`

`load_training_data` queries `ml.training_samples` for rows with
`reference_date` in `[start_date, end_date)` and
`label_type IN ('CHURN','ACTIVE')`, applies type enforcement and derived
features, then runs `_validate_no_leakage`. The SQL query is embedded as
a filter over a given table; `_enforce_types` / `_add_derived_features`
only coerce dtypes and add columns and never change `reference_date`, so
they are identities for the fields modelled here. Of the three checks in
`_validate_no_leakage`, checks 1 and 3 only log; only check 2
(future-dated rows) raises. -/

/-- One row of `ml.training_samples`, restricted to the fields the
loader's filter and leakage check read. `reference_date` is a `yyyymmdd`
date code. -/
structure SampleRow where
  reference_date : ℤ
  label_type : String
  churned_in_30d : Bool
  deriving DecidableEq

/-- The SQL query of `load_training_data` (data_loader.py lines 58-65):
`reference_date >= start AND reference_date < end AND
label_type IN ('CHURN', 'ACTIVE')`. -/
def load_query (tbl : List SampleRow) (s e : ℤ) : List SampleRow :=
  tbl.filter (fun r =>
    decide (s ≤ r.reference_date) && decide (r.reference_date < e) &&
    (r.label_type == "CHURN" || r.label_type == "ACTIVE"))

/-- `_validate_no_leakage`, check 2 (data_loader.py lines 193-200):
raise `ValueError` if any row has `reference_date > DATA_CUTOFF_DATE`,
else return the frame unchanged. Checks 1 and 3 only log. -/
def validate_no_leakage (df : List SampleRow) : Except String (List SampleRow) :=
  if df.any (fun r => decide (DATA_CUTOFF_DATE < r.reference_date))
  then .error "LEAKAGE DETECTED"
  else .ok df

/-- `load_training_data` (data_loader.py lines 31-89): query with the
given or default date bounds, then validate. `none` bounds take the
config defaults `TRAIN_START_DATE` / `DATA_CUTOFF_DATE` (lines 53-54). -/
def load_training_data (tbl : List SampleRow) (s e : Option ℤ) :
    Except String (List SampleRow) :=
  validate_no_leakage (load_query tbl (s.getD TRAIN_START_DATE) (e.getD DATA_CUTOFF_DATE))

/-- C3 counterexample: with an explicit `end_date` one day past the
cutoff, a row dated exactly at the cutoff (2026-02-10) is returned by
`load_training_data` without an error, yet its `reference_date` does not
strictly precede the data cutoff — the guard only rejects rows strictly
after the cutoff. -/
theorem load_training_data_cutoff_boundary_cex :
    load_training_data [⟨20260210, "CHURN", true⟩] (some 20240301) (some 20260211)
      = .ok [⟨20260210, "CHURN", true⟩]
    ∧ ¬((20260210 : ℤ) < DATA_CUTOFF_DATE) := by
  constructor
  · rfl
  · decide

/-- C3 (amended): `load_training_data` raises when any loaded row's
`reference_date` is strictly after the configured data cutoff (never
silently filtering such rows), and every row of a successfully returned
table satisfies `reference_date ≤ DATA_CUTOFF_DATE` (equality with the
cutoff is allowed through). -/
theorem load_training_data_leakage_guard :
    ∀ (tbl : List SampleRow) (s e : Option ℤ),
      (∀ df, load_training_data tbl s e = .ok df →
        ∀ r ∈ df, r.reference_date ≤ DATA_CUTOFF_DATE) ∧
      ((∃ r ∈ load_query tbl (s.getD TRAIN_START_DATE) (e.getD DATA_CUTOFF_DATE),
          DATA_CUTOFF_DATE < r.reference_date) →
        load_training_data tbl s e = .error "LEAKAGE DETECTED") := by
  intro tbl s e
  constructor
  · intro df hdf r hr
    unfold load_training_data validate_no_leakage at hdf
    by_cases hany : (load_query tbl (s.getD TRAIN_START_DATE)
        (e.getD DATA_CUTOFF_DATE)).any
        (fun r => decide (DATA_CUTOFF_DATE < r.reference_date)) = true
    · rw [if_pos hany] at hdf
      cases hdf
    · rw [if_neg hany] at hdf
      cases hdf
      have := (List.any_eq_true).not.mp hany
      push_neg at this
      have hle := this r hr
      simp at hle
      exact hle
  · intro hex
    obtain ⟨r, hr, hgt⟩ := hex
    have hany : (load_query tbl (s.getD TRAIN_START_DATE)
        (e.getD DATA_CUTOFF_DATE)).any
        (fun r => decide (DATA_CUTOFF_DATE < r.reference_date)) = true :=
      List.any_eq_true.mpr ⟨r, hr, by simpa using hgt⟩
    unfold load_training_data validate_no_leakage
    rw [if_pos hany]

/-- Witness for C3's amended theorem: an in-range table is returned with
all rows at or before the cutoff, and a table holding a future-dated row
makes the loader raise. -/
theorem load_training_data_leakage_guard_witness :
    (∀ r ∈ [(⟨20250101, "CHURN", true⟩ : SampleRow)],
        r.reference_date ≤ DATA_CUTOFF_DATE) ∧
    load_training_data [⟨20260301, "ACTIVE", false⟩] none (some 20270101)
      = .error "LEAKAGE DETECTED" :=
  ⟨(load_training_data_leakage_guard [⟨20250101, "CHURN", true⟩] none none).1
      [⟨20250101, "CHURN", true⟩] rfl,
   (load_training_data_leakage_guard [⟨20260301, "ACTIVE", false⟩] none
      (some 20270101)).2 (by decide)⟩

/-! ### PSI — `src/monitoring/drift_detector.py`, `compute_psi`
(lines 26-74). NaN entries are `none`; numpy float arithmetic is
modelled exactly over `ℚ`, with `Real.log` for `np.log`. -/

/-- `expected[~np.isnan(expected)]` (drift_detector.py lines 52-53). -/
def removeNaN (xs : List (Option ℚ)) : List ℚ := xs.filterMap id

/-- `np.percentile(xs, q)` with the default linear interpolation:
on the sorted data `s` of length n, the value at fractional rank
`h = q(n-1)/100` is `s[⌊h⌋] + (h-⌊h⌋)(s[⌊h⌋+1]-s[⌊h⌋])`. -/
def percentile (xs : List ℚ) (q : ℚ) : ℚ :=
  let s := xs.mergeSort (fun a b => decide (a ≤ b))
  let n := s.length
  if n = 0 then 0
  else
    let h : ℚ := q * ((n : ℚ) - 1) / 100
    let i : ℕ := (Int.floor h).toNat
    if i + 1 < n then s.getD i 0 + (h - (i : ℚ)) * (s.getD (i + 1) 0 - s.getD i 0)
    else s.getD (n - 1) 0

/-- `np.unique(np.percentile(expected, np.linspace(0, 100, n_bins+1)))`
(drift_detector.py lines 61-62): decile-style breakpoints of the
reference distribution, sorted with duplicates collapsed. -/
def psi_breakpoints (ex : List ℚ) (n_bins : ℕ) : List ℚ :=
  (((List.range (n_bins + 1)).map
      (fun i => percentile ex (100 * (i : ℚ) / (n_bins : ℚ)))).mergeSort
    (fun a b => decide (a ≤ b))).dedup

/-- `np.histogram(xs, bins=bps)[0]` (drift_detector.py lines 65-66):
bin j counts values in `[bps[j], bps[j+1])`, except the last bin which
is closed on the right. -/
def histogram (xs : List ℚ) (bps : List ℚ) : List ℕ :=
  (List.range (bps.length - 1)).map (fun j =>
    if j + 2 = bps.length then
      (xs.filter (fun v => decide (bps.getD j 0 ≤ v) && decide (v ≤ bps.getD (j + 1) 0))).length
    else
      (xs.filter (fun v => decide (bps.getD j 0 ≤ v) && decide (v < bps.getD (j + 1) 0))).length)

/-- `(counts + eps) / (counts.sum() + eps * len(counts))` with
`eps = 1e-6` (drift_detector.py lines 69-71). -/
def smooth_pcts (counts : List ℕ) : List ℚ :=
  counts.map (fun c =>
    ((c : ℚ) + 1 / 1000000) / ((counts.sum : ℚ) + (1 / 1000000) * (counts.length : ℚ)))

/-- One summand of the PSI sum (drift_detector.py line 73):
`(actual_pct - expected_pct) * ln(actual_pct / expected_pct)`. -/
noncomputable def psi_term (p : ℚ × ℚ) : ℝ :=
  ((p.1 - p.2 : ℚ) : ℝ) * Real.log ((p.1 / p.2 : ℚ) : ℝ)

/-- `compute_psi` (drift_detector.py lines 26-74): fewer than 10
non-NaN values on either side reports 0; otherwise bin both
distributions on the reference breakpoints, smooth, and sum the PSI
terms. -/
noncomputable def compute_psi (expected actual : List (Option ℚ)) (n_bins : ℕ) : ℝ :=
  if (removeNaN expected).length < 10 ∨ (removeNaN actual).length < 10 then 0
  else
    (((smooth_pcts (histogram (removeNaN actual)
          (psi_breakpoints (removeNaN expected) n_bins))).zip
        (smooth_pcts (histogram (removeNaN expected)
          (psi_breakpoints (removeNaN expected) n_bins)))).map psi_term).sum

/-- The PSI sum over a list zipped with itself vanishes term by term. -/
theorem psi_term_zip_self_sum_zero :
    ∀ l : List ℚ, (((l.zip l).map psi_term).sum : ℝ) = 0
  | [] => by simp
  | x :: t => by
      have ih := psi_term_zip_self_sum_zero t
      simp [psi_term, ih]

/-- C8: for every input with at least 10 non-NaN values,
`compute_psi(X, X)` is exactly 0 — a distribution against itself has
identical bin counts, so the additive-epsilon smoothing and the
collapsing of duplicate decile breakpoints still give every summand
`(a - e)·ln(a/e)` with `a = e`, hence zero. -/
theorem compute_psi_self_zero :
    ∀ X : List (Option ℚ), 10 ≤ (removeNaN X).length → compute_psi X X 10 = 0 := by
  intro X h
  unfold compute_psi
  rw [if_neg (by omega)]
  exact psi_term_zip_self_sum_zero _

/-- Witness for C8 at a concrete 10-element sample. -/
theorem compute_psi_self_zero_witness :
    compute_psi
      [some 0, some 1, some 2, some 3, some 4, some 5, some 6, some 7, none, some 8, some 9]
      [some 0, some 1, some 2, some 3, some 4, some 5, some 6, some 7, none, some 8, some 9]
      10 = 0 :=
  compute_psi_self_zero
    [some 0, some 1, some 2, some 3, some 4, some 5, some 6, some 7, none, some 8, some 9]
    (by decide)

/-! ### Walk-forward splitter — `src/training/walk_forward.py`

Timestamps are placed on an integer time axis with 31 units per month:
`dateT y m d = 31·(12y + (m-1)) + (d-1)`. This is strictly monotone in
the calendar date, every calendar day is an integer point, and
`pd.DateOffset(months=k)` applied to a day-1 date is addition by `31k`.
The `while` loop of `generate_walk_forward_folds` advances
`current_val` by the window until it exceeds `val_end`; it is embedded
with an explicit iteration bound `wf_fuel` that dominates the real
iteration count for every effective window (which is always ≥ 1 month,
since Python's `window_months or default` replaces both `None` and `0`
by the configured default of 1; a negative window would make the source
loop forever and is outside the model). -/

/-- Calendar date on the 31-per-month integer time axis. -/
def dateT (y m d : ℕ) : ℤ := 31 * (12 * (y : ℤ) + ((m : ℤ) - 1)) + ((d : ℤ) - 1)

/-- `ModelConfig.TRAIN_START_DATE` = "2024-03-01" on the time axis. -/
def TRAIN_START_T : ℤ := dateT 2024 3 1

/-- `ModelConfig.TEST_START_DATE` = "2025-07-01" on the time axis. -/
def TEST_START_T : ℤ := dateT 2025 7 1

/-- A row of the full training dataset as seen by the splitter: its
`reference_date` (time axis) and the label whose positive counts the
loop only logs. -/
structure WFRow where
  reference_date : ℤ
  churned_in_30d : Bool
  deriving DecidableEq

/-- One fold as produced by the loop body: the validation window
`[valStart, valEnd)` plus the two row subsets. The source returns only
the `(train_df, val_df)` pairs; the window bounds are carried so the
window-level properties can be stated. -/
structure Fold where
  valStart : ℤ
  valEnd : ℤ
  train : List WFRow
  val : List WFRow
  deriving DecidableEq

/-- `train_mask` (walk_forward.py lines 111-114):
`train_start <= reference_date < current_val`. -/
def train_mask (df : List WFRow) (ts v : ℤ) : List WFRow :=
  df.filter (fun r => decide (ts ≤ r.reference_date) && decide (r.reference_date < v))

/-- `val_mask` (walk_forward.py lines 115-118):
`current_val <= reference_date < val_end`. -/
def val_mask (df : List WFRow) (v ve : ℤ) : List WFRow :=
  df.filter (fun r => decide (v ≤ r.reference_date) && decide (r.reference_date < ve))

/-- Python's `window_months or MODEL_CONFIG.VALIDATION_WINDOW_MONTHS`
(walk_forward.py line 88): `None` and `0` are falsy and take the
default. -/
def effective_window : Option ℕ → ℕ
  | none => VALIDATION_WINDOW_MONTHS
  | some 0 => VALIDATION_WINDOW_MONTHS
  | some (k + 1) => k + 1

/-- The effective validation window is always at least one month. -/
theorem effective_window_pos : ∀ o : Option ℕ, 1 ≤ effective_window o
  | none => Nat.le_refl 1
  | some 0 => Nat.le_refl 1
  | some (k + 1) => Nat.succ_le_succ (Nat.zero_le k)

/-- The `while current_val <= last_val` loop of
`generate_walk_forward_folds` (walk_forward.py lines 108-157): build the
expanding train window and the sliding validation window
(`val_end = current_val + window_months`, line 109), keep the fold only
when both sides are nonempty (a skipped fold is logged, lines 148-154),
then advance `current_val` to `val_end`. -/
def wf_loop (df : List WFRow) (ts : ℤ) (w : ℕ) : ℕ → ℤ → ℤ → List Fold
  | 0, _, _ => []
  | fuel + 1, current, last =>
    if current ≤ last then
      (if (train_mask df ts current).length > 0 ∧
          (val_mask df current (current + 31 * (w : ℤ))).length > 0 then
        [⟨current, current + 31 * (w : ℤ), train_mask df ts current,
          val_mask df current (current + 31 * (w : ℤ))⟩]
      else [])
      ++ wf_loop df ts w fuel (current + 31 * (w : ℤ)) last
    else []

/-- Iteration bound for the loop: with an effective window ≥ 1 month
(≥ 31 axis units) the loop runs at most `(last - first) + 1` times, so
this fuel is never the reason the recursion stops. -/
def wf_fuel (vs ve : ℤ) : ℕ := (ve - vs).toNat + 1

/-- `generate_walk_forward_folds` (walk_forward.py lines 50-160) with
the parameter defaults of lines 87-99: `train_start` defaults to
`TRAIN_START_DATE`, the first validation start to 6 months after
`train_start`, the last validation start to 1 month before
`TEST_START_DATE`, and the window to `VALIDATION_WINDOW_MONTHS`. -/
def generate_walk_forward_folds (df : List WFRow)
    (train_start val_start_month val_end_month : Option ℤ)
    (window_months : Option ℕ) : List Fold :=
  wf_loop df (train_start.getD TRAIN_START_T) (effective_window window_months)
    (wf_fuel (val_start_month.getD (train_start.getD TRAIN_START_T + 31 * 6))
      (val_end_month.getD (TEST_START_T - 31)))
    (val_start_month.getD (train_start.getD TRAIN_START_T + 31 * 6))
    (val_end_month.getD (TEST_START_T - 31))

/-- Shape invariant of every fold the loop emits: its validation window
starts no earlier than the loop position, is exactly one window wide,
its row subsets are the date-mask filters at its own window, and both
subsets are nonempty. -/
theorem wf_loop_mem (df : List WFRow) (ts : ℤ) (w : ℕ) :
    ∀ (fuel : ℕ) (current last : ℤ) (f : Fold),
      f ∈ wf_loop df ts w fuel current last →
      current ≤ f.valStart ∧ f.valEnd = f.valStart + 31 * (w : ℤ) ∧
      f.train = train_mask df ts f.valStart ∧
      f.val = val_mask df f.valStart f.valEnd ∧
      f.train ≠ [] ∧ f.val ≠ [] := by
  intro fuel
  induction fuel with
  | zero => intro current last f hf; simp [wf_loop] at hf
  | succ n ih =>
    intro current last f hf
    rw [wf_loop] at hf
    by_cases hcl : current ≤ last
    · rw [if_pos hcl, List.mem_append] at hf
      rcases hf with hf | hf
      · by_cases hk : (train_mask df ts current).length > 0 ∧
            (val_mask df current (current + 31 * (w : ℤ))).length > 0
        · rw [if_pos hk, List.mem_singleton] at hf
          subst hf
          refine ⟨le_refl _, rfl, rfl, rfl, ?_, ?_⟩
          · exact List.ne_nil_of_length_pos hk.1
          · exact List.ne_nil_of_length_pos hk.2
        · rw [if_neg hk] at hf
          simp at hf
      · have hrest := ih (current + 31 * (w : ℤ)) last f hf
        refine ⟨le_trans ?_ hrest.1, hrest.2⟩
        have hwnn : (0 : ℤ) ≤ 31 * (w : ℤ) := by positivity
        linarith
    · rw [if_neg hcl] at hf
      simp at hf

/-- The loop emits folds whose validation windows appear in
chronological order and never overlap: each fold's window ends no later
than any later fold's window starts. -/
theorem wf_loop_val_disjoint (df : List WFRow) (ts : ℤ) (w : ℕ) :
    ∀ (fuel : ℕ) (current last : ℤ),
      (wf_loop df ts w fuel current last).Pairwise
        (fun f g => f.valEnd ≤ g.valStart) := by
  intro fuel
  induction fuel with
  | zero => intro current last; simp [wf_loop]
  | succ n ih =>
    intro current last
    rw [wf_loop]
    by_cases hcl : current ≤ last
    · rw [if_pos hcl]
      refine List.pairwise_append.mpr ⟨?_, ih (current + 31 * (w : ℤ)) last, ?_⟩
      · by_cases hk : (train_mask df ts current).length > 0 ∧
            (val_mask df current (current + 31 * (w : ℤ))).length > 0
        · rw [if_pos hk]; simp
        · rw [if_neg hk]; simp
      · intro f hf g hg
        by_cases hk : (train_mask df ts current).length > 0 ∧
            (val_mask df current (current + 31 * (w : ℤ))).length > 0
        · rw [if_pos hk, List.mem_singleton] at hf
          subst hf
          exact (wf_loop_mem df ts w n (current + 31 * (w : ℤ)) last g hg).1
        · rw [if_neg hk] at hf
          simp at hf
    · rw [if_neg hcl]
      simp

/-- The loop emits folds whose train windows, all anchored at the train
start, strictly expand: a later fold's train interval strictly contains
an earlier fold's, and its train rows include the earlier fold's. -/
theorem wf_loop_train_expanding (df : List WFRow) (ts : ℤ) (w : ℕ)
    (hw : 1 ≤ w) :
    ∀ (fuel : ℕ) (current last : ℤ),
      (wf_loop df ts w fuel current last).Pairwise
        (fun f g => Set.Ico ts f.valStart ⊂ Set.Ico ts g.valStart ∧
          ∀ r ∈ f.train, r ∈ g.train) := by
  intro fuel
  induction fuel with
  | zero => intro current last; simp [wf_loop]
  | succ n ih =>
    intro current last
    rw [wf_loop]
    by_cases hcl : current ≤ last
    · rw [if_pos hcl]
      refine List.pairwise_append.mpr ⟨?_, ih (current + 31 * (w : ℤ)) last, ?_⟩
      · by_cases hk : (train_mask df ts current).length > 0 ∧
            (val_mask df current (current + 31 * (w : ℤ))).length > 0
        · rw [if_pos hk]; simp
        · rw [if_neg hk]; simp
      · intro f hf g hg
        by_cases hk : (train_mask df ts current).length > 0 ∧
            (val_mask df current (current + 31 * (w : ℤ))).length > 0
        · rw [if_pos hk, List.mem_singleton] at hf
          subst hf
          obtain ⟨hg1, hg2, hg3, hg4, hg5, hg6⟩ :=
            wf_loop_mem df ts w n (current + 31 * (w : ℤ)) last g hg
          have hwpos : (1 : ℤ) ≤ (w : ℤ) := by exact_mod_cast hw
          have hlt : current < g.valStart := by linarith
          obtain ⟨r, hr⟩ := List.exists_mem_of_length_pos hk.1
          have hr2 : ts ≤ r.reference_date ∧ r.reference_date < current := by
            have := List.of_mem_filter hr
            simp at this
            exact this
          have hts : ts ≤ current := le_trans hr2.1 (le_of_lt hr2.2)
          constructor
          · refine (Set.ssubset_iff_of_subset
              (Set.Ico_subset_Ico_right (le_of_lt hlt))).mpr ?_
            exact ⟨current, Set.mem_Ico.mpr ⟨hts, hlt⟩,
              fun hmem => lt_irrefl current (Set.mem_Ico.mp hmem).2⟩
          · intro r2 hr2mem
            rw [hg3]
            have hr2f := List.of_mem_filter hr2mem
            simp at hr2f
            have hr2in := List.mem_of_mem_filter hr2mem
            apply List.mem_filter.mpr
            refine ⟨hr2in, ?_⟩
            simp
            exact ⟨hr2f.1, lt_of_lt_of_le hr2f.2 (le_of_lt hlt)⟩
        · rw [if_neg hk] at hf
          simp at hf
    · rw [if_neg hcl]
      simp

/-- C5: the folds returned by `generate_walk_forward_folds` have
pairwise non-overlapping validation windows; every fold's train window
is anchored at the train start and is a strict superset by date of any
earlier fold's train window (also containing its rows); and every
returned fold has nonempty train and validation sides (a fold with zero
rows on either side is dropped, never merged: each kept fold's
validation window is still exactly one window wide and its row subsets
are exactly the date-mask filters of its own window). -/
theorem walk_forward_folds_spec :
    ∀ (df : List WFRow) (ots ovs ove : Option ℤ) (ow : Option ℕ),
      (generate_walk_forward_folds df ots ovs ove ow).Pairwise
        (fun f g => f.valEnd ≤ g.valStart) ∧
      (generate_walk_forward_folds df ots ovs ove ow).Pairwise
        (fun f g => Set.Ico (ots.getD TRAIN_START_T) f.valStart ⊂
            Set.Ico (ots.getD TRAIN_START_T) g.valStart ∧
          ∀ r ∈ f.train, r ∈ g.train) ∧
      ∀ f ∈ generate_walk_forward_folds df ots ovs ove ow,
        f.train ≠ [] ∧ f.val ≠ [] ∧
        f.valEnd = f.valStart + 31 * (effective_window ow : ℤ) ∧
        f.train = train_mask df (ots.getD TRAIN_START_T) f.valStart ∧
        f.val = val_mask df f.valStart f.valEnd := by
  intro df ots ovs ove ow
  refine ⟨wf_loop_val_disjoint df _ _ _ _ _,
    wf_loop_train_expanding df _ _ (effective_window_pos ow) _ _ _, ?_⟩
  intro f hf
  obtain ⟨h1, h2, h3, h4, h5, h6⟩ :=
    wf_loop_mem df (ots.getD TRAIN_START_T) (effective_window ow) _ _ _ f hf
  exact ⟨h5, h6, h2, h3, h4⟩

/-- Witness for C5: a two-row dataset with explicit bounds yields
exactly one kept fold (the second grid window has an empty validation
side and is dropped); the theorem's per-fold facts hold at that fold. -/
theorem walk_forward_folds_spec_witness :
    (⟨310, 341, [⟨5, false⟩], [⟨320, true⟩]⟩ : Fold).train ≠ [] ∧
    (⟨310, 341, [⟨5, false⟩], [⟨320, true⟩]⟩ : Fold).val ≠ [] ∧
    (⟨310, 341, [⟨5, false⟩], [⟨320, true⟩]⟩ : Fold).valEnd =
      (⟨310, 341, [⟨5, false⟩], [⟨320, true⟩]⟩ : Fold).valStart +
        31 * (effective_window (some 1) : ℤ) ∧
    (⟨310, 341, [⟨5, false⟩], [⟨320, true⟩]⟩ : Fold).train =
      train_mask [⟨5, false⟩, ⟨320, true⟩] ((some (0 : ℤ)).getD TRAIN_START_T)
        (⟨310, 341, [⟨5, false⟩], [⟨320, true⟩]⟩ : Fold).valStart ∧
    (⟨310, 341, [⟨5, false⟩], [⟨320, true⟩]⟩ : Fold).val =
      val_mask [⟨5, false⟩, ⟨320, true⟩]
        (⟨310, 341, [⟨5, false⟩], [⟨320, true⟩]⟩ : Fold).valStart
        (⟨310, 341, [⟨5, false⟩], [⟨320, true⟩]⟩ : Fold).valEnd :=
  (walk_forward_folds_spec [⟨5, false⟩, ⟨320, true⟩] (some 0) (some 310)
    (some 320) (some 1)).2.2 ⟨310, 341, [⟨5, false⟩], [⟨320, true⟩]⟩ (by decide)

/-! ### Stacking ensemble — `src/training/stacking_ensemble.py`

The ensemble is embedded with its exact state layout (`__init__`,
lines 59-90): the four specialists in dict order with their registry
feature lists, the optional meta-learner, calibrator, fitted flag,
recorded metrics and class weight. A fitted sklearn/XGBoost model is
represented by its probability function `List ℚ → ℚ` on a projected
feature row; the external training routines (`XGBClassifier(...).fit`,
`LogisticRegression(...).fit`, `CalibratedClassifierCV(...).fit`, and
`_evaluate`) are parameters of `fit`, with the XGBoost stage fallible
the way a raised exception is (the later sklearn stages are taken as
total on well-formed input; the mutation-ordering behaviour under
failure is visible already in the L0 stage). -/

/-- `FeatureConfig` feature groups (config/features.py lines 29-105). -/
def TENURE_FEATURES : List String :=
  ["tenure_days", "current_spell_duration_days", "contracts_in_current_spell",
   "total_previous_spells", "total_previous_churns"]

/-- Frequency group (config/features.py lines 40-51). -/
def FREQUENCY_FEATURES : List String :=
  ["checkins_last_7d", "checkins_last_14d", "checkins_last_30d", "checkins_last_90d",
   "days_since_last_checkin", "checkin_trend", "avg_weekly_checkins_90d",
   "checkin_consistency", "weekend_ratio", "has_ever_checked_in"]

/-- Engagement group (config/features.py lines 56-59). -/
def ENGAGEMENT_FEATURES : List String := ["peak_hour_ratio", "visited_other_branch"]

/-- Recency group (config/features.py lines 66-70). -/
def RECENCY_FEATURES : List String :=
  ["days_until_contract_end", "contract_expiring_30d", "days_since_last_payment"]

/-- Financial group (config/features.py lines 77-82). -/
def FINANCIAL_FEATURES : List String :=
  ["avg_monthly_payment_90d", "payment_regularity", "has_open_receivable", "is_defaulter"]

/-- Seasonality group (config/features.py lines 87-90). -/
def SEASONALITY_FEATURES : List String := ["month_of_year", "is_resolution_signup"]

/-- Demographic group (config/features.py lines 95-98). -/
def DEMOGRAPHIC_FEATURES : List String := ["idade", "gender"]

/-- Segment group (config/features.py lines 103-105). -/
def SEGMENT_FEATURES : List String := ["had_segment_migration"]

/-- `FeatureConfig.XGB_FREQ_FEATURES` (config/features.py lines 148-151). -/
def XGB_FREQ_FEATURES : List String := FREQUENCY_FEATURES ++ ENGAGEMENT_FEATURES

/-- `FeatureConfig.XGB_FIN_FEATURES` (config/features.py lines 153-156). -/
def XGB_FIN_FEATURES : List String := FINANCIAL_FEATURES

/-- `FeatureConfig.XGB_TENURE_FEATURES` (config/features.py lines 158-161). -/
def XGB_TENURE_FEATURES : List String := TENURE_FEATURES ++ RECENCY_FEATURES

/-- `FeatureConfig.XGB_CONTEXT_FEATURES` (config/features.py lines 163-170). -/
def XGB_CONTEXT_FEATURES : List String :=
  SEASONALITY_FEATURES ++ DEMOGRAPHIC_FEATURES ++ SEGMENT_FEATURES

/-- `FeatureConfig.L1_PASSTHROUGH_FEATURES` (config/features.py lines 189-193). -/
def L1_PASSTHROUGH_FEATURES : List String :=
  ["days_since_last_checkin", "days_until_contract_end", "checkin_trend"]

/-- A pandas DataFrame as the ensemble sees it: the column list and the
rows, each row a total valuation of the columns it has (every model
feature is numeric after type enforcement). -/
structure DFrame where
  cols : List String
  rows : List (String → ℚ)

/-- `X[features]`: the row-wise projection onto a feature subset. -/
def project (X : DFrame) (features : List String) : List (List ℚ) :=
  X.rows.map (fun r => features.map r)

/-- `SpecialistModel` (stacking_ensemble.py lines 42-48): name, fixed
feature list, and the trained classifier once one exists, represented
by its positive-class probability function on a projected row. -/
structure SpecialistModel where
  name : String
  features : List String
  model : Option (List ℚ → ℚ)

/-- `StackingEnsemble.__init__` state (stacking_ensemble.py lines 59-65). -/
structure StackingEnsemble where
  specialists : List SpecialistModel
  meta_learner : Option (List ℚ → ℚ)
  calibrator : Option (List ℚ → ℚ)
  is_fitted : Bool
  training_metrics : List (String × ℚ)
  scale_pos_weight : ℚ

/-- `_init_specialists` (stacking_ensemble.py lines 67-90): the four
specialists in dict order with their registry feature subsets and no
trained model. -/
def init_specialists : List SpecialistModel :=
  [⟨"xgb_freq", XGB_FREQ_FEATURES, none⟩,
   ⟨"xgb_fin", XGB_FIN_FEATURES, none⟩,
   ⟨"xgb_tenure", XGB_TENURE_FEATURES, none⟩,
   ⟨"xgb_context", XGB_CONTEXT_FEATURES, none⟩]

/-- The freshly constructed ensemble (stacking_ensemble.py lines 59-65). -/
def StackingEnsemble.init : StackingEnsemble :=
  ⟨init_specialists, none, none, false, [], 1⟩

/-- `_build_l1_input` (stacking_ensemble.py lines 227-240): per row,
the specialist probability columns in dict order followed by each
passthrough feature column that is present in `X.columns`. -/
def build_l1_input (X : DFrame) (preds : List (List ℚ)) : List (List ℚ) :=
  (List.range X.rows.length).map (fun i =>
    preds.map (fun p => p.getD i 0) ++
    (L1_PASSTHROUGH_FEATURES.filter (fun f => X.cols.contains f)).map
      (fun f => (X.rows.getD i (fun _ => 0)) f))

/-- Stands for `XGBClassifier(**params).fit(X_tr, y_train,
eval_set=[(X_va, y_val)])` followed by taking `predict_proba[:, 1]`:
from the specialist name, the class weight and the projected
train/validation data, produce the fitted model's probability function,
or raise. -/
abbrev XgbTrainer := String → ℚ → List (List ℚ) → List Bool → List (List ℚ) →
  List Bool → Except String (List ℚ → ℚ)

/-- Stands for `LogisticRegression(**L1_PARAMS).fit`. -/
abbrev MetaTrainer := List (List ℚ) → List Bool → (List ℚ → ℚ)

/-- Stands for `CalibratedClassifierCV(meta, cv="prefit").fit` followed
by `predict_proba[:, 1]`. -/
abbrev CalTrainer := (List ℚ → ℚ) → List (List ℚ) → List Bool → (List ℚ → ℚ)

/-- Stands for `_evaluate` (lines 242-280), which only computes logged
metric values. -/
abbrev Evaluator := List Bool → List ℚ → List (String × ℚ)

/-- The `for name, specialist in self.specialists.items()` loop of
`fit` (stacking_ensemble.py lines 125-151): train each specialist in
dict order, assigning `specialist.model` as soon as its training
finishes and recording its train- and validation-partition probability
columns; a raised exception aborts the loop and leaves the
already-assigned models in place (Python mutates the specialists
incrementally and `fit` has no exception handler). -/
def train_specialists (tr : XgbTrainer) (spw : ℚ) (Xtr : DFrame) (ytr : List Bool)
    (Xva : DFrame) (yva : List Bool) :
    List SpecialistModel →
      List SpecialistModel × List (List ℚ) × List (List ℚ) × Option String
  | [] => ([], [], [], none)
  | s :: rest =>
    match tr s.name spw (project Xtr s.features) ytr (project Xva s.features) yva with
    | .error msg => (s :: rest, [], [], some msg)
    | .ok m =>
      match train_specialists tr spw Xtr ytr Xva yva rest with
      | (rest2, ptr, pva, err) =>
        ({ s with model := some m } :: rest2,
         (project Xtr s.features).map m :: ptr,
         (project Xva s.features).map m :: pva,
         err)

/-- `scale_pos_weight = n_neg / max(n_pos, 1)` computed from the
training labels (stacking_ensemble.py lines 112-114). -/
def scale_weight (ytr : List Bool) : ℚ :=
  ((ytr.filter (fun b => !b)).length : ℚ) /
    ((max (ytr.filter (fun b => b)).length 1 : ℕ) : ℚ)

/-- Everything `fit` leaves behind: the mutated ensemble, the exception
it propagated if any, and — for auditing the training protocol — the
exact matrix and labels handed to `self.meta_learner.fit`. -/
structure FitTrace where
  ensemble : StackingEnsemble
  err : Option String
  meta_fit_X : Option (List (List ℚ))
  meta_fit_y : Option (List Bool)

/-- `StackingEnsemble.fit` (stacking_ensemble.py lines 92-185):
compute `scale_pos_weight = n_neg / max(n_pos, 1)` (lines 112-114),
train the specialists (lines 125-151), build the L1 inputs from the
train- and validation-partition L0 predictions (lines 157-158), fit
the meta-learner on `(X_l1_train, y_train)` (line 161), fit the
calibrator on `(X_l1_val, y_val)` (lines 168-173), evaluate on the
calibrated validation scores (lines 176-177) and set the fitted flag
(line 178). -/
def StackingEnsemble.fit (e : StackingEnsemble) (Xtr : DFrame) (ytr : List Bool)
    (Xva : DFrame) (yva : List Bool) (tr : XgbTrainer) (mt : MetaTrainer)
    (ct : CalTrainer) (ev : Evaluator) : FitTrace :=
  match train_specialists tr (scale_weight ytr) Xtr ytr Xva yva e.specialists with
  | (specs2, _, _, some msg) =>
    ⟨{ e with specialists := specs2, scale_pos_weight := scale_weight ytr },
     some msg, none, none⟩
  | (specs2, l0_train_preds, l0_val_preds, none) =>
    let X_l1_train := build_l1_input Xtr l0_train_preds
    let X_l1_val := build_l1_input Xva l0_val_preds
    let meta := mt X_l1_train ytr
    let cal := ct meta X_l1_val yva
    ⟨{ specialists := specs2, meta_learner := some meta, calibrator := some cal,
       is_fitted := true, training_metrics := ev yva (X_l1_val.map cal),
       scale_pos_weight := scale_weight ytr },
     none, some X_l1_train, some ytr⟩

/-- `StackingEnsemble.predict_proba` (stacking_ensemble.py lines
187-212): refuse an unfitted ensemble, regenerate each specialist's
probabilities on its feature subset (a `None` model would raise), build
the L1 input and return the calibrator's probabilities. -/
def StackingEnsemble.predict_proba (e : StackingEnsemble) (X : DFrame) :
    Except String (List ℚ) :=
  if e.is_fitted = false then .error "Model not fitted. Call fit() first."
  else do
    let l0 ← e.specialists.mapM (fun s =>
      match s.model with
      | some m => Except.ok ((project X s.features).map m)
      | none => Except.error "NoneType has no attribute predict_proba")
    match e.calibrator with
    | some c => Except.ok ((build_l1_input X l0).map c)
    | none => Except.error "NoneType has no attribute predict_proba"

/-- The artifact directory written by `save` (stacking_ensemble.py
lines 282-303): one dump per specialist keyed by name, the meta-learner
and calibrator dumps, and the config snapshot. -/
structure SavedArtifacts where
  specialist_models : List (String × Option (List ℚ → ℚ))
  meta_learner : Option (List ℚ → ℚ)
  calibrator : Option (List ℚ → ℚ)
  scale_pos_weight : ℚ
  training_metrics : List (String × ℚ)
  specialist_features : List (String × List String)

/-- `StackingEnsemble.save` (stacking_ensemble.py lines 282-303). -/
def StackingEnsemble.save (e : StackingEnsemble) : SavedArtifacts :=
  ⟨e.specialists.map (fun s => (s.name, s.model)),
   e.meta_learner, e.calibrator, e.scale_pos_weight, e.training_metrics,
   e.specialists.map (fun s => (s.name, s.features))⟩

/-- `StackingEnsemble.load` (stacking_ensemble.py lines 305-321):
restore each current specialist's model from its named dump (the claim
setting loads the directory a `save` just wrote, so every dump is
present), restore the meta-learner, calibrator and snapshot fields, and
set the fitted flag. The snapshot's feature lists are not read back —
the constructed registry feature lists stay in force. -/
def StackingEnsemble.load (e : StackingEnsemble) (a : SavedArtifacts) :
    StackingEnsemble :=
  { e with
    specialists := e.specialists.map (fun s =>
      { s with model := (a.specialist_models.lookup s.name).getD none }),
    meta_learner := a.meta_learner,
    calibrator := a.calibrator,
    scale_pos_weight := a.scale_pos_weight,
    training_metrics := a.training_metrics,
    is_fitted := true }

/-- Concrete fit instance for auditing the meta-learner's training
inputs: one train row valuing every feature 0, one validation row
valuing every feature 1, a trainer returning the model that reads the
first projected feature, and total meta/calibration/evaluation stages. -/
def audit_Xtr : DFrame := ⟨[], [fun _ => 0]⟩

/-- The validation frame of the audit fit instance. -/
def audit_Xva : DFrame := ⟨[], [fun _ => 1]⟩

/-- The audit fit call on a fresh ensemble. -/
def audit_trace : FitTrace :=
  StackingEnsemble.init.fit audit_Xtr [true] audit_Xva [false]
    (fun _ _ _ _ _ _ => .ok (fun v => v.headD 0))
    (fun _ _ => fun v => v.headD 0)
    (fun _ _ _ => fun v => v.headD 0)
    (fun _ _ => [])

/-- C1: the L1 meta-learner is NOT fitted on the validation partition's
L0 predictions. At a concrete fit call whose train- and validation-
partition L0 probabilities differ (all-0 vs all-1), the matrix handed
to `meta_learner.fit` is the train-partition one `[[0,0,0,0]]` with
labels `y_train`, and differs from the validation-partition matrix
`[[1,1,1,1]]`: stacking_ensemble.py line 161 fits on `X_l1_train`,
built at line 157 from `l0_train_preds` over `X_train` — the
training-partition predictions are re-used as both feature and label
source. -/
theorem meta_learner_fit_on_train_partition_cex :
    audit_trace.meta_fit_X = some [[0, 0, 0, 0]] ∧
    audit_trace.meta_fit_y = some [true] ∧
    build_l1_input audit_Xva [[1], [1], [1], [1]] = [[1, 1, 1, 1]] ∧
    audit_trace.meta_fit_X ≠ some [[1, 1, 1, 1]] := by
  refine ⟨rfl, rfl, rfl, ?_⟩
  intro h
  rw [show audit_trace.meta_fit_X = some [[0, 0, 0, 0]] from rfl] at h
  simp at h

/-- A trainer whose second specialist raises, as an XGBoost failure
would; the first call succeeds. -/
def failing_xgb : XgbTrainer := fun name _ _ _ _ _ =>
  if name == "xgb_freq" then .ok (fun v => v.headD 0) else .error "xgboost failure"

/-- The audit fit call with the failing trainer. -/
def failed_trace : FitTrace :=
  StackingEnsemble.init.fit audit_Xtr [true] audit_Xva [false] failing_xgb
    (fun _ _ => fun v => v.headD 0)
    (fun _ _ _ => fun v => v.headD 0)
    (fun _ _ => [])

/-- C4 counterexample: a fit whose second specialist training raises
leaves the ensemble partially fitted — the first specialist's model
exists while the second specialist's model, the meta-learner and the
calibrator do not, violating the claimed "all six exist or none do"
invariant after a fit that fails partway. -/
theorem ensemble_incomplete_fit_cex :
    failed_trace.err = some "xgboost failure" ∧
    (failed_trace.ensemble.specialists.getD 0 ⟨"", [], none⟩).model.isSome = true ∧
    (failed_trace.ensemble.specialists.getD 1 ⟨"", [], none⟩).model.isSome = false ∧
    failed_trace.ensemble.meta_learner = none ∧
    failed_trace.ensemble.calibrator = none :=
  ⟨rfl, rfl, rfl, rfl, rfl⟩

/-- All specialists carry a model when the training loop finished
without an exception. -/
theorem train_specialists_ok_all_models (tr : XgbTrainer) (spw : ℚ) (Xtr : DFrame)
    (ytr : List Bool) (Xva : DFrame) (yva : List Bool) :
    ∀ specs : List SpecialistModel,
      (train_specialists tr spw Xtr ytr Xva yva specs).2.2.2 = none →
      ∀ s ∈ (train_specialists tr spw Xtr ytr Xva yva specs).1,
        s.model.isSome = true := by
  intro specs
  induction specs with
  | nil =>
    intro hok s hs
    rw [train_specialists] at hs
    simp at hs
  | cons hd tl ih =>
    intro hok s hs
    rw [train_specialists] at hok hs
    cases htr : tr hd.name spw (project Xtr hd.features) ytr
        (project Xva hd.features) yva with
    | error msg =>
      rw [htr] at hok
      simp at hok
    | ok m =>
      rw [htr] at hok hs
      rcases hrec : train_specialists tr spw Xtr ytr Xva yva tl with
        ⟨rest2, ptr2, pva2, err2⟩
      rw [hrec] at hok hs
      simp at hok hs
      rcases hs with hs | hs
      · subst hs; rfl
      · have := ih (by rw [hrec]; exact hok) s
        rw [hrec] at this
        exact this hs

/-- C4 (amended): a freshly constructed ensemble has none of the six
components; after a fit that returns without an exception, all four
specialist models, the meta-learner and the calibrator exist and the
ensemble is marked fitted; and a fit that raises never changes the
fitted flag — so the partially-mutated state it can leave behind (see
the counterexample) is never marked fitted when starting from a fresh
ensemble, and `predict_proba` refuses it. -/
theorem ensemble_fit_states :
    (∀ s ∈ StackingEnsemble.init.specialists, s.model = none) ∧
    StackingEnsemble.init.meta_learner = none ∧
    StackingEnsemble.init.calibrator = none ∧
    StackingEnsemble.init.is_fitted = false ∧
    (∀ (e : StackingEnsemble) (Xtr : DFrame) (ytr : List Bool) (Xva : DFrame)
        (yva : List Bool) (tr : XgbTrainer) (mt : MetaTrainer) (ct : CalTrainer)
        (ev : Evaluator),
      (e.fit Xtr ytr Xva yva tr mt ct ev).err = none →
      (∀ s ∈ (e.fit Xtr ytr Xva yva tr mt ct ev).ensemble.specialists,
          s.model.isSome = true) ∧
      (e.fit Xtr ytr Xva yva tr mt ct ev).ensemble.meta_learner.isSome = true ∧
      (e.fit Xtr ytr Xva yva tr mt ct ev).ensemble.calibrator.isSome = true ∧
      (e.fit Xtr ytr Xva yva tr mt ct ev).ensemble.is_fitted = true) ∧
    (∀ (e : StackingEnsemble) (Xtr : DFrame) (ytr : List Bool) (Xva : DFrame)
        (yva : List Bool) (tr : XgbTrainer) (mt : MetaTrainer) (ct : CalTrainer)
        (ev : Evaluator),
      (e.fit Xtr ytr Xva yva tr mt ct ev).err.isSome = true →
      (e.fit Xtr ytr Xva yva tr mt ct ev).ensemble.is_fitted = e.is_fitted) := by
  refine ⟨?_, rfl, rfl, rfl, ?_, ?_⟩
  · intro s hs
    simp [StackingEnsemble.init, init_specialists] at hs
    rcases hs with rfl | rfl | rfl | rfl <;> rfl
  · intro e Xtr ytr Xva yva tr mt ct ev herr
    unfold StackingEnsemble.fit at herr ⊢
    rcases hrec : train_specialists tr (scale_weight ytr) Xtr ytr Xva yva
        e.specialists with ⟨specs2, ptr, pva, err2⟩
    rw [hrec] at herr
    cases err2 with
    | none =>
      refine ⟨?_, rfl, rfl, rfl⟩
      intro s hs
      have hall := train_specialists_ok_all_models tr (scale_weight ytr)
        Xtr ytr Xva yva e.specialists (by rw [hrec]) s
      rw [hrec] at hall
      exact hall hs
    | some msg =>
      cases herr
  · intro e Xtr ytr Xva yva tr mt ct ev herr
    unfold StackingEnsemble.fit at herr ⊢
    rcases hrec : train_specialists tr (scale_weight ytr) Xtr ytr Xva yva
        e.specialists with ⟨specs2, ptr, pva, err2⟩
    rw [hrec] at herr
    cases err2 with
    | none => simp at herr
    | some msg => rfl

/-- Witness for C4's amended theorem: the concrete successful audit fit
has all components present and is marked fitted. -/
theorem ensemble_fit_states_witness :
    (∀ s ∈ audit_trace.ensemble.specialists, s.model.isSome = true) ∧
    audit_trace.ensemble.meta_learner.isSome = true ∧
    audit_trace.ensemble.calibrator.isSome = true ∧
    audit_trace.ensemble.is_fitted = true :=
  ensemble_fit_states.2.2.2.2.1 StackingEnsemble.init audit_Xtr [true] audit_Xva
    [false] (fun _ _ _ _ _ _ => .ok (fun v => v.headD 0))
    (fun _ _ => fun v => v.headD 0)
    (fun _ _ _ => fun v => v.headD 0)
    (fun _ _ => []) rfl

/-- C9: save-then-load round trip. For every fitted ensemble of the
canonical registry shape (the shape `__init__` followed by `fit` or
`load` produces: the four registry specialists in dict order, each with
a fitted model, plus meta-learner and calibrator) and every input
batch, loading the saved artifact directory into a freshly constructed
ensemble yields `predict_proba` output identical to the original's,
with no re-fitting. -/
theorem save_load_round_trip :
    ∀ (m1 m2 m3 m4 meta cal : List ℚ → ℚ) (tm : List (String × ℚ)) (spw : ℚ)
      (X : DFrame),
      (StackingEnsemble.init.load (StackingEnsemble.save
          ⟨[⟨"xgb_freq", XGB_FREQ_FEATURES, some m1⟩,
            ⟨"xgb_fin", XGB_FIN_FEATURES, some m2⟩,
            ⟨"xgb_tenure", XGB_TENURE_FEATURES, some m3⟩,
            ⟨"xgb_context", XGB_CONTEXT_FEATURES, some m4⟩],
           some meta, some cal, true, tm, spw⟩)).predict_proba X
        = StackingEnsemble.predict_proba
          ⟨[⟨"xgb_freq", XGB_FREQ_FEATURES, some m1⟩,
            ⟨"xgb_fin", XGB_FIN_FEATURES, some m2⟩,
            ⟨"xgb_tenure", XGB_TENURE_FEATURES, some m3⟩,
            ⟨"xgb_context", XGB_CONTEXT_FEATURES, some m4⟩],
           some meta, some cal, true, tm, spw⟩ X := by
  intro m1 m2 m3 m4 meta cal tm spw X
  rfl

/-- Witness for C9 at a concrete fitted ensemble and batch (the
statement of `save_load_round_trip` has only non-propositional
binders; this instantiates it fully). -/
theorem save_load_round_trip_witness :
    (StackingEnsemble.init.load (StackingEnsemble.save
        ⟨[⟨"xgb_freq", XGB_FREQ_FEATURES, some (fun v => v.headD 0)⟩,
          ⟨"xgb_fin", XGB_FIN_FEATURES, some (fun v => v.headD 0)⟩,
          ⟨"xgb_tenure", XGB_TENURE_FEATURES, some (fun v => v.headD 0)⟩,
          ⟨"xgb_context", XGB_CONTEXT_FEATURES, some (fun v => v.headD 0)⟩],
         some (fun v => v.headD 0), some (fun v => v.headD 0), true, [], 1⟩)).predict_proba
      ⟨[], [fun _ => 0]⟩
      = StackingEnsemble.predict_proba
        ⟨[⟨"xgb_freq", XGB_FREQ_FEATURES, some (fun v => v.headD 0)⟩,
          ⟨"xgb_fin", XGB_FIN_FEATURES, some (fun v => v.headD 0)⟩,
          ⟨"xgb_tenure", XGB_TENURE_FEATURES, some (fun v => v.headD 0)⟩,
          ⟨"xgb_context", XGB_CONTEXT_FEATURES, some (fun v => v.headD 0)⟩],
         some (fun v => v.headD 0), some (fun v => v.headD 0), true, [], 1⟩
        ⟨[], [fun _ => 0]⟩ :=
  save_load_round_trip (fun v => v.headD 0) (fun v => v.headD 0) (fun v => v.headD 0)
    (fun v => v.headD 0) (fun v => v.headD 0) (fun v => v.headD 0) [] 1
    ⟨[], [fun _ => 0]⟩

/-- Witness for C10 at a concrete row missing both optional columns but
with every other signal raised. -/
theorem classify_missing_columns_witness :
    classify_churn_type ⟨some 50, 0, "HIGH", none, none⟩ ≠ "DEFAULT" ∧
    classify_churn_type ⟨some 50, 0, "HIGH", none, none⟩ ≠ "FINANCIAL" ∧
    classify_churn_type ⟨some 50, 0, "HIGH", none, none⟩ ≠ "FULL" :=
  ⟨(classify_missing_columns ⟨some 50, 0, "HIGH", none, none⟩).1 rfl,
   ((classify_missing_columns ⟨some 50, 0, "HIGH", none, none⟩).2 rfl).1,
   ((classify_missing_columns ⟨some 50, 0, "HIGH", none, none⟩).2 rfl).2⟩

end Churn
